import Mathlib

/-!
Shallow embedding of the computation layer of the PGB transport-record
application (`src/app.py`).  Pandas numeric cells are modelled as `Option ℤ`
(`Option.none` is `NaN`; every numeric value the program manipulates —
odometer readings from integer form inputs, their differences, and the
default thresholds — is an integer, so Python float arithmetic on them is
exact and is embedded as integer arithmetic).  Python `None` is
`Option.none`, and the loosely typed value returned by `get_setting` is the
inductive `SettingVal`.  Python's `float(...)` string parse is kept
abstract as a parameter `parse : String → Option ℤ` (`Option.none` models a
raised `ValueError`); every theorem below holds for an arbitrary parse
function.  Python's `str.strip`/`str.upper` are embedded as the executable
`pyStrip`/`pyUpper` over the character list of the string.
-/

namespace PGB

/-- `str.upper()`: uppercase every character. -/
def pyUpper (s : String) : String :=
  String.mk (s.toList.map Char.toUpper)

/-- `str.strip()`: drop whitespace from both ends. -/
def pyStrip (s : String) : String :=
  String.mk (((s.toList.dropWhile Char.isWhitespace).reverse.dropWhile
    Char.isWhitespace).reverse)

/-- One row of the Settings sheet: a key mapped to a raw cell value
(the code applies `str(...)` to the cell, so the value is a string). -/
structure Setting where
  key : String
  value : String
deriving DecidableEq, Repr

/-- The dynamically typed value produced by `get_setting`: Python bool,
number, string, or `None` (the default when none is supplied). -/
inductive SettingVal where
  | bool (b : Bool)
  | num (q : ℤ)
  | str (s : String)
  | pynone
deriving DecidableEq, Repr

/-- Python truthiness `bool(x)` on a `SettingVal`. -/
def pyBool : SettingVal → Bool
  | .bool b => b
  | .num q => decide (q ≠ 0)
  | .str s => decide (s ≠ "")
  | .pynone => false

/-- Python `float(x)` on a `SettingVal`; `Option.none` models the raised
`TypeError`/`ValueError` (e.g. `float(None)` or an unparseable string). -/
def pyFloat (parse : String → Option ℤ) : SettingVal → Option ℤ
  | .bool b => some (if b then 1 else 0)
  | .num q => some q
  | .str s => parse s
  | .pynone => none

/-- Result of a Python computation that can raise an exception. -/
inductive PyResult (α : Type) where
  | raised
  | ok (a : α)
deriving DecidableEq, Repr

/-- `get_setting(key, default)` from `src/app.py`: first row whose `Key`
matches; absent gives the default unchanged; present values are stripped
and coerced: case-insensitive TRUE/FALSE to bool, else numeric parse, else
the text itself.  Total: a malformed value never raises here. -/
def get_setting (settings : List Setting) (parse : String → Option ℤ)
    (key : String) (default : SettingVal) : SettingVal :=
  match settings.find? (fun s => decide (s.key = key)) with
  | Option.none => default
  | Option.some row =>
    let val := pyStrip row.value
    if pyUpper val = "TRUE" then .bool true
    else if pyUpper val = "FALSE" then .bool false
    else
      match parse val with
      | Option.some q => .num q
      | Option.none => .str val

/-- `compute_distance(start, end)` from `src/app.py`: absent when either
reading is `NaN`, else the signed difference `end - start`. -/
def compute_distance (start «end» : Option ℤ) : Option ℤ :=
  match start, «end» with
  | Option.some a, Option.some b => Option.some (b - a)
  | _, _ => Option.none

/-- `flag_daily_anomaly(distance)` from `src/app.py`.  Reads
`DAILY_TRIP_LIMIT` (default 1000) at evaluation time; an absent distance
gives no flag before the limit is ever converted; otherwise `float(limit)`
may raise (the `.raised` case) and the flag is `"DAILY_HIGH"` iff the
distance strictly exceeds the limit. -/
def flag_daily_anomaly (settings : List Setting) (parse : String → Option ℤ)
    (distance : Option ℤ) : PyResult String :=
  let limit := get_setting settings parse "DAILY_TRIP_LIMIT" (.num 1000)
  match distance with
  | Option.none => .ok ""
  | Option.some d =>
    match pyFloat parse limit with
    | Option.none => .raised
    | Option.some q => .ok (if q < d then "DAILY_HIGH" else "")

/-- A calendar date (what `pd.to_datetime` yields when the cell parses). -/
structure YMD where
  year : Nat
  month : Nat
  day : Nat
deriving DecidableEq, Repr

/-- One row of the UsageLog sheet.  `date` is `Option.none` when the cell
is unparseable (`NaT` after `errors="coerce"`); numeric cells are
`Option ℤ`. -/
structure Trip where
  logID : Int
  date : Option YMD
  user : String
  company : String
  vehicleID : String
  plateNo : String
  odoStart : Option ℤ
  odoEnd : Option ℤ
  distance : Option ℤ
  purpose : String
  anomalyFlag : String
  anomalyNote : String
  approvedBy : String
deriving DecidableEq, Repr

/-- One row of the Vehicles sheet. -/
structure Vehicle where
  vehicleID : String
  plateNo : String
  company : String
  status : String
  odometer : ℤ
  lastServiceOdo : ℤ
  lastServiceDate : String
  notes : String
deriving DecidableEq, Repr

/-- The month key `df["Date"].dt.to_period("M").astype(str)` of a trip: the
date truncated to (year, month); `Option.none` models the string `"NaT"`
that an unparseable date becomes (which is a perfectly valid group key). -/
def monthKey (t : Trip) : Option (Nat × Nat) :=
  t.date.map (fun d => (d.year, d.month))

/-- The pair the aggregation groups by: `["VehicleID", "Month"]`. -/
def tripKey (t : Trip) : String × Option (Nat × Nat) :=
  (t.vehicleID, monthKey t)

/-- Pandas `sum(min_count=1)` over a column of optional numbers: the sum of
the present values, absent when every value is absent. -/
def groupSum (ds : List (Option ℤ)) : Option ℤ :=
  let present := ds.filterMap id
  if present = [] then Option.none else Option.some present.sum

/-- One output row of `monthly_vehicle_distance`. -/
structure Aggregate where
  vehicleID : String
  month : Option (Nat × Nat)
  monthlyDistance : Option ℤ
deriving DecidableEq, Repr

/-- `monthly_vehicle_distance(usage_df)` from `src/app.py`: empty input
gives the empty frame; otherwise one row per distinct `(VehicleID, Month)`
key with the `min_count=1` sum of the group's distances.  (Pandas sorts the
group keys; output order is not modelled, only the set of rows.) -/
def monthly_vehicle_distance (usage : List Trip) : List Aggregate :=
  if usage = [] then []
  else
    ((usage.map tripKey).dedup).map (fun k =>
      { vehicleID := k.1, month := k.2,
        monthlyDistance :=
          groupSum ((usage.filter (fun t => decide (tripKey t = k))).map Trip.distance) })

/-- `service_alerts(vehicles)` from `src/app.py`: vehicles whose
`Odometer - LastServiceOdo` is at least `SERVICE_INTERVAL_KM` (default
10000); `.raised` models `float(...)` raising on a malformed interval. -/
def service_alerts (settings : List Setting) (parse : String → Option ℤ)
    (vehicles : List Vehicle) : PyResult (List Vehicle) :=
  match pyFloat parse (get_setting settings parse "SERVICE_INTERVAL_KM" (.num 10000)) with
  | Option.none => .raised
  | Option.some interval =>
    .ok (vehicles.filter (fun v => decide (interval ≤ v.odometer - v.lastServiceOdo)))

/-- `usage["LogID"].max() + 1` when the ledger is non-empty, else 1. -/
def new_id (usage : List Trip) : Int :=
  match (usage.map Trip.logID).maximum with
  | Option.none => 1
  | Option.some m => m + 1

/-- The Python test `dist is None or dist < 0` in the submit handler. -/
def isNoneOrNeg : Option ℤ → Bool
  | Option.none => true
  | Option.some d => decide (d < 0)

/-- The vehicle update of the submit handler:
`v.loc[v["VehicleID"]==vehicle_id, "Odometer"] = odo_end` and
`... "Status"] = "Available"` — every row with the matching id gets the new
odometer and the Available status, every other row is untouched. -/
def updateVehicles (vehicles : List Vehicle) (vehicleId : String) (odoEnd : ℤ) :
    List Vehicle :=
  vehicles.map (fun v =>
    if v.vehicleID = vehicleId then
      { v with odometer := odoEnd, status := "Available" }
    else v)

/-- Outcome of one submission of the Add Usage form. -/
inductive SubmitResult where
  | raised
  | rejected (msg : String)
  | committed (usage : List Trip) (vehicles : List Vehicle)
deriving DecidableEq, Repr

/-- The `submit2` handler of the Add Usage form in `src/app.py` (lines
253–274).  Odometer inputs are the non-negative integers of
`st.number_input`.  Rejection happens when `NEGATIVE_MILEAGE_BLOCK`
(default true) is truthy and the distance is absent or negative; otherwise
the new trip (id `max+1` or 1, freshly computed distance and daily flag) is
appended and the vehicle rows matching the id are updated.  `.raised`
models the exception `float(limit)` can throw inside
`flag_daily_anomaly`. -/
def submit2 (settings : List Setting) (parse : String → Option ℤ)
    (usage : List Trip) (vehicles : List Vehicle)
    (date : YMD) (user company vehicleId plate purpose approver : String)
    (odoStart odoEnd : Nat) : SubmitResult :=
  let negative_block := pyBool (get_setting settings parse "NEGATIVE_MILEAGE_BLOCK" (.bool true))
  let dist := compute_distance (Option.some (odoStart : ℤ)) (Option.some (odoEnd : ℤ))
  if negative_block && isNoneOrNeg dist then
    .rejected "OdoEnd cannot be less than OdoStart."
  else
    match flag_daily_anomaly settings parse dist with
    | .raised => .raised
    | .ok anomaly =>
      .committed
        (usage ++ [{ logID := new_id usage, date := Option.some date, user := user,
                     company := company, vehicleID := vehicleId, plateNo := plate,
                     odoStart := Option.some (odoStart : ℤ),
                     odoEnd := Option.some (odoEnd : ℤ), distance := dist,
                     purpose := purpose, anomalyFlag := anomaly, anomalyNote := "",
                     approvedBy := approver }])
        (updateVehicles vehicles vehicleId (odoEnd : ℤ))


/-- Claim C2: `compute_distance` is absent iff either input is
missing/unparseable, and on two present readings equals the signed
difference end − start (negative results are returned, not rejected). -/
theorem C2_compute_distance (start «end» : Option ℤ) :
    (compute_distance start «end» = Option.none ↔
      start = Option.none ∨ «end» = Option.none) ∧
    (∀ a b : ℤ, start = Option.some a → «end» = Option.some b →
      compute_distance start «end» = Option.some (b - a)) := by
  cases start <;> cases «end» <;> simp [compute_distance]

/-- Witness for C2 at the spec's example: readings 100 → 90 give the signed
distance −10, not an absent value. -/
theorem C2_compute_distance_witness :
    compute_distance (Option.some 100) (Option.some 90) = Option.some (90 - 100) :=
  (C2_compute_distance (Option.some 100) (Option.some 90)).2 100 90 rfl rfl

/-- Claim C3: whenever `DAILY_TRIP_LIMIT` converts to the number `q`
(absent setting gives the default 1000), `flag_daily_anomaly` yields
`"DAILY_HIGH"` iff the distance is present and strictly greater than `q`;
an absent distance and a distance equal to `q` are never flagged. -/
theorem C3_flag_daily (settings : List Setting) (parse : String → Option ℤ)
    (d : Option ℤ) (q : ℤ)
    (hq : pyFloat parse (get_setting settings parse "DAILY_TRIP_LIMIT" (.num 1000)) =
      Option.some q) :
    (flag_daily_anomaly settings parse d = .ok "DAILY_HIGH" ↔
      ∃ x : ℤ, d = Option.some x ∧ q < x) ∧
    (d = Option.none → flag_daily_anomaly settings parse d = .ok "") ∧
    (d = Option.some q → flag_daily_anomaly settings parse d = .ok "") := by
  unfold flag_daily_anomaly
  cases d with
  | none => simp
  | some x =>
    simp only [hq]
    by_cases hlt : q < x
    · simp [hlt]
      omega
    · simp [hlt]

/-- Witness for C3 with an empty settings sheet (so the default limit 1000
applies): distance 1001 is flagged, distance 1000 is not. -/
theorem C3_flag_daily_witness :
    (flag_daily_anomaly [] (fun _ => Option.none) (Option.some 1001) = .ok "DAILY_HIGH" ↔
      ∃ x : ℤ, (Option.some 1001 : Option ℤ) = Option.some x ∧ (1000 : ℤ) < x) ∧
    ((Option.some 1001 : Option ℤ) = Option.none →
      flag_daily_anomaly [] (fun _ => Option.none) (Option.some 1001) = .ok "") ∧
    ((Option.some 1001 : Option ℤ) = Option.some 1000 →
      flag_daily_anomaly [] (fun _ => Option.none) (Option.some 1001) = .ok "") :=
  C3_flag_daily [] (fun _ => Option.none) (Option.some 1001) 1000 (by decide)

/-- Claim C9: the settings resolver returns the default unchanged for an
absent key; for a present key it returns TRUE/FALSE (case-insensitively,
after stripping) as a boolean, else a successful numeric parse as a
number, else the stripped text itself — and it is total, so a malformed
value never raises. -/
theorem C9_get_setting (settings : List Setting) (parse : String → Option ℤ)
    (key : String) (default : SettingVal) :
    (settings.find? (fun s => decide (s.key = key)) = Option.none →
      get_setting settings parse key default = default) ∧
    (∀ row : Setting, settings.find? (fun s => decide (s.key = key)) = Option.some row →
      (pyUpper (pyStrip row.value) = "TRUE" →
        get_setting settings parse key default = .bool true) ∧
      (pyUpper (pyStrip row.value) = "FALSE" →
        get_setting settings parse key default = .bool false) ∧
      (∀ q : ℤ, pyUpper (pyStrip row.value) ≠ "TRUE" →
        pyUpper (pyStrip row.value) ≠ "FALSE" →
        parse (pyStrip row.value) = Option.some q →
        get_setting settings parse key default = .num q) ∧
      (pyUpper (pyStrip row.value) ≠ "TRUE" →
        pyUpper (pyStrip row.value) ≠ "FALSE" →
        parse (pyStrip row.value) = Option.none →
        get_setting settings parse key default = .str (pyStrip row.value))) := by
  constructor
  · intro h
    unfold get_setting
    rw [h]
  · intro row h
    refine ⟨?_, ?_, ?_, ?_⟩ <;> unfold get_setting <;> rw [h] <;> intros <;>
      simp_all
  
/-- Witness for C9: the raw value `" true "` (present under key `"K"`) is
stripped, uppercased and returned as the boolean `true`, not as text. -/
theorem C9_get_setting_witness :
    get_setting [⟨"K", " true "⟩] (fun _ => Option.none) "K" (.num 5) = .bool true :=
  ((C9_get_setting [⟨"K", " true "⟩] (fun _ => Option.none) "K" (.num 5)).2
    ⟨"K", " true "⟩ (by decide)).1 (by decide)

/-- Claim C6: whenever `SERVICE_INTERVAL_KM` converts to the number `q`
(absent setting gives the default 10000), `service_alerts` selects exactly
the vehicles with `odometer - lastServiceOdo ≥ q`; the comparison is
inclusive, so equality alerts. -/
theorem C6_service_alerts (settings : List Setting) (parse : String → Option ℤ)
    (vehicles : List Vehicle) (q : ℤ)
    (hq : pyFloat parse (get_setting settings parse "SERVICE_INTERVAL_KM" (.num 10000)) =
      Option.some q) :
    ∃ l : List Vehicle, service_alerts settings parse vehicles = .ok l ∧
      ∀ v : Vehicle, v ∈ l ↔ v ∈ vehicles ∧ q ≤ v.odometer - v.lastServiceOdo := by
  refine ⟨vehicles.filter (fun v => decide (q ≤ v.odometer - v.lastServiceOdo)), ?_, ?_⟩
  · unfold service_alerts
    rw [hq]
  · intro v
    simp [List.mem_filter]

/-- Witness for C6 at the spec's boundary scenario: odometer 10000, last
service 0, default interval 10000 — the vehicle is in the alert set. -/
theorem C6_service_alerts_witness :
    ∃ l : List Vehicle,
      service_alerts [] (fun _ => Option.none) [⟨"V1", "P", "C", "Available", 10000, 0, "d", "n"⟩] = .ok l ∧
      ∀ v : Vehicle, v ∈ l ↔
        v ∈ [(⟨"V1", "P", "C", "Available", 10000, 0, "d", "n"⟩ : Vehicle)] ∧
        (10000 : ℤ) ≤ v.odometer - v.lastServiceOdo :=
  C6_service_alerts [] (fun _ => Option.none)
    [⟨"V1", "P", "C", "Available", 10000, 0, "d", "n"⟩] 10000 (by decide)
/-- Characterization of the aggregation output: a row is in the output iff
its (vehicle, month) key occurs among the trips and its distance is the
`min_count=1` sum over that key's group. -/
theorem mem_monthly (usage : List Trip) (a : Aggregate) :
    a ∈ monthly_vehicle_distance usage ↔
      (a.vehicleID, a.month) ∈ usage.map tripKey ∧
      a.monthlyDistance =
        groupSum ((usage.filter (fun t => decide (tripKey t = (a.vehicleID, a.month)))).map
          Trip.distance) := by
  by_cases hu : usage = []
  · subst hu
    simp [monthly_vehicle_distance]
  · unfold monthly_vehicle_distance
    rw [if_neg hu]
    simp only [List.mem_map, List.mem_dedup]
    constructor
    · rintro ⟨k, hk, rfl⟩
      constructor
      · simpa using hk
      · simp
    · rintro ⟨hk, hd⟩
      refine ⟨(a.vehicleID, a.month), hk, ?_⟩
      cases a with
      | mk v m md =>
        simp at hd ⊢
        exact hd.symm

/-- Projecting the constructed rows back to their keys is the identity
(structure eta). -/
theorem map_key_mk (usage : List Trip) (l : List (String × Option (Nat × Nat))) :
    (l.map (fun k =>
      ({ vehicleID := k.1, month := k.2,
         monthlyDistance :=
           groupSum ((usage.filter (fun t => decide (tripKey t = k))).map
             Trip.distance) } : Aggregate))).map (fun a => (a.vehicleID, a.month)) = l := by
  induction l with
  | nil => rfl
  | cons x xs ih =>
    simp only [List.map_cons, ih]

/-- The key list of the aggregation output is the deduplicated key list of
the trips (non-empty case). -/
theorem monthly_keys (usage : List Trip) (hu : usage ≠ []) :
    (monthly_vehicle_distance usage).map (fun a => (a.vehicleID, a.month)) =
      (usage.map tripKey).dedup := by
  unfold monthly_vehicle_distance
  rw [if_neg hu]
  exact map_key_mk usage _

/-- Claim C4: in every output row, the summed distance is the sum of the
present distances of the group's trips: it is absent iff every trip in the
group has an absent distance, and as soon as one distance is present the
row's sum is the sum of exactly the present ones (absent co-grouped trips
are ignored, never erasing a present contribution). -/
theorem C4_monthly_sum (usage : List Trip) (a : Aggregate)
    (h : a ∈ monthly_vehicle_distance usage) :
    (a.monthlyDistance = Option.none ↔
      ∀ t ∈ usage.filter (fun t => decide (tripKey t = (a.vehicleID, a.month))),
        t.distance = Option.none) ∧
    (((usage.filter (fun t => decide (tripKey t = (a.vehicleID, a.month)))).map
        Trip.distance).filterMap id ≠ [] →
      a.monthlyDistance = Option.some
        (((usage.filter (fun t => decide (tripKey t = (a.vehicleID, a.month)))).map
          Trip.distance).filterMap id).sum) := by
  obtain ⟨-, hd⟩ := (mem_monthly usage a).1 h
  have key :
      ((usage.filter (fun t => decide (tripKey t = (a.vehicleID, a.month)))).map
        Trip.distance).filterMap id = [] ↔
      ∀ t ∈ usage.filter (fun t => decide (tripKey t = (a.vehicleID, a.month))),
        t.distance = Option.none := by
    rw [List.filterMap_eq_nil_iff]
    constructor
    · intro hall t ht
      simpa using hall t.distance (List.mem_map.2 ⟨t, ht, rfl⟩)
    · intro hall o ho
      obtain ⟨t, ht, rfl⟩ := List.mem_map.1 ho
      simpa using hall t ht
  have ifnone :
      groupSum ((usage.filter (fun t => decide (tripKey t = (a.vehicleID, a.month)))).map
        Trip.distance) = Option.none ↔
      ((usage.filter (fun t => decide (tripKey t = (a.vehicleID, a.month)))).map
        Trip.distance).filterMap id = [] := by
    simp only [groupSum]
    split_ifs with hp
    · simp [hp]
    · exact iff_of_false (by simp) hp
  refine ⟨?_, ?_⟩
  · rw [hd]
    exact ifnone.trans key
  · intro hp
    rw [hd]
    simp only [groupSum]
    rw [if_neg hp]

/-- Witness for C4: two present distances (10 and 5) in the same
vehicle-month group sum to 15, and a co-grouped trip with absent distance
does not erase that sum. -/
theorem C4_monthly_sum_witness :
    (⟨"V1", Option.some (2024, 1), Option.some 15⟩ : Aggregate).monthlyDistance =
      Option.some 15 :=
  (C4_monthly_sum
    [⟨1, Option.some ⟨2024, 1, 5⟩, "u", "c", "V1", "P", Option.none, Option.none,
       Option.some 10, "", "", "", "a"⟩,
     ⟨2, Option.some ⟨2024, 1, 6⟩, "u", "c", "V1", "P", Option.none, Option.none,
       Option.some 5, "", "", "", "a"⟩,
     ⟨3, Option.some ⟨2024, 1, 7⟩, "u", "c", "V1", "P", Option.none, Option.none,
       Option.none, "", "", "", "a"⟩]
    ⟨"V1", Option.some (2024, 1), Option.some 15⟩ (by decide)).2 (by decide)

/-- Counterexample to claim C5 as stated: a single trip whose date is
unparseable (`NaT`) does produce an output row — keyed by the `"NaT"`
month — whereas the claim says no row is produced for such trips. -/
theorem C5_counterexample :
    (⟨1, Option.none, "u", "c", "V1", "P", Option.none, Option.none, Option.some 5,
       "", "", "", "a"⟩ : Trip).date = Option.none ∧
    monthly_vehicle_distance
      [⟨1, Option.none, "u", "c", "V1", "P", Option.none, Option.none, Option.some 5,
         "", "", "", "a"⟩] =
      [⟨"V1", Option.none, Option.some 5⟩] := by decide

/-- Claim C5 as amended: the aggregator produces exactly one output row per
distinct (vehicle, month-key) pair occurring among the trips, where a trip
with an unparseable date is keyed under the absent (`"NaT"`) month and does
produce a row; an empty input produces an empty output. -/
theorem C5_monthly_grouping (usage : List Trip) :
    (usage = [] → monthly_vehicle_distance usage = []) ∧
    ((monthly_vehicle_distance usage).map (fun a => (a.vehicleID, a.month))).Nodup ∧
    (∀ p : String × Option (Nat × Nat),
      p ∈ (monthly_vehicle_distance usage).map (fun a => (a.vehicleID, a.month)) ↔
        p ∈ usage.map tripKey) := by
  refine ⟨fun hu => by simp [monthly_vehicle_distance, hu], ?_, ?_⟩
  · by_cases hu : usage = []
    · simp [monthly_vehicle_distance, hu]
    · rw [monthly_keys usage hu]
      exact List.nodup_dedup _
  · intro p
    by_cases hu : usage = []
    · simp [monthly_vehicle_distance, hu]
    · rw [monthly_keys usage hu]
      exact List.mem_dedup

/-- Witness for C5 (amended): a parseable January-2024 trip yields a row
keyed ("V1", 2024-01). -/
theorem C5_monthly_grouping_witness :
    ("V1", Option.some (2024, 1)) ∈
      (monthly_vehicle_distance
        [⟨1, Option.some ⟨2024, 1, 5⟩, "u", "c", "V1", "P", Option.none, Option.none,
           Option.some 10, "", "", "", "a"⟩]).map (fun a => (a.vehicleID, a.month)) :=
  ((C5_monthly_grouping
    [⟨1, Option.some ⟨2024, 1, 5⟩, "u", "c", "V1", "P", Option.none, Option.none,
       Option.some 10, "", "", "", "a"⟩]).2.2
    ("V1", Option.some (2024, 1))).mpr (by decide)
/-- A committed submission appends exactly the freshly constructed trip and
applies exactly the vehicle update of the handler. -/
theorem submit2_committed {settings : List Setting} {parse : String → Option ℤ}
    {usage : List Trip} {vehicles : List Vehicle} {date : YMD}
    {user company vehicleId plate purpose approver : String}
    {odoStart odoEnd : Nat} {u' : List Trip} {v' : List Vehicle}
    (h : submit2 settings parse usage vehicles date user company vehicleId plate
      purpose approver odoStart odoEnd = .committed u' v') :
    ∃ anomaly : String,
      flag_daily_anomaly settings parse
        (compute_distance (Option.some (odoStart : ℤ)) (Option.some (odoEnd : ℤ))) =
        .ok anomaly ∧
      u' = usage ++
        [{ logID := new_id usage, date := Option.some date, user := user,
           company := company, vehicleID := vehicleId, plateNo := plate,
           odoStart := Option.some (odoStart : ℤ), odoEnd := Option.some (odoEnd : ℤ),
           distance := compute_distance (Option.some (odoStart : ℤ))
             (Option.some (odoEnd : ℤ)),
           purpose := purpose, anomalyFlag := anomaly, anomalyNote := "",
           approvedBy := approver }] ∧
      v' = updateVehicles vehicles vehicleId (odoEnd : ℤ) := by
  simp only [submit2] at h
  split at h
  · simp at h
  · split at h
    · simp at h
    · rename_i anomaly heq
      exact ⟨anomaly, heq, (SubmitResult.committed.inj h).1.symm,
        (SubmitResult.committed.inj h).2.symm⟩

/-- Every vehicle row matching the submitted id carries the submitted end
odometer after the update. -/
theorem updateVehicles_odo (vehicles : List Vehicle) (vid : String) (e : ℤ) :
    ∀ v ∈ updateVehicles vehicles vid e, v.vehicleID = vid → v.odometer = e := by
  intro v hv
  simp only [updateVehicles, List.mem_map] at hv
  obtain ⟨w, hw, rfl⟩ := hv
  by_cases hid : w.vehicleID = vid
  · rw [if_pos hid]
    intro h2
    rfl
  · rw [if_neg hid]
    intro hvid
    exact absurd hvid hid

/-- Claim C1: when `NEGATIVE_MILEAGE_BLOCK` resolves truthy and the
computed distance is absent or negative, the submission is rejected (no
trip, no vehicle change); with the block resolved falsy the same
submission commits a trip carrying the signed (possibly negative) distance
and the vehicle's odometer becomes the submitted end value. -/
theorem C1_negative_mileage_block (settings : List Setting) (parse : String → Option ℤ)
    (usage : List Trip) (vehicles : List Vehicle) (date : YMD)
    (user company vehicleId plate purpose approver : String) (odoStart odoEnd : Nat) :
    (pyBool (get_setting settings parse "NEGATIVE_MILEAGE_BLOCK" (.bool true)) = true →
      isNoneOrNeg (compute_distance (Option.some (odoStart : ℤ))
        (Option.some (odoEnd : ℤ))) = true →
      submit2 settings parse usage vehicles date user company vehicleId plate purpose
        approver odoStart odoEnd = .rejected "OdoEnd cannot be less than OdoStart.") ∧
    (pyBool (get_setting settings parse "NEGATIVE_MILEAGE_BLOCK" (.bool true)) = false →
      ∀ anomaly : String,
        flag_daily_anomaly settings parse
          (compute_distance (Option.some (odoStart : ℤ)) (Option.some (odoEnd : ℤ))) =
          .ok anomaly →
        ∃ t : Trip,
          submit2 settings parse usage vehicles date user company vehicleId plate purpose
            approver odoStart odoEnd =
            .committed (usage ++ [t]) (updateVehicles vehicles vehicleId (odoEnd : ℤ)) ∧
          t.distance = Option.some ((odoEnd : ℤ) - (odoStart : ℤ)) ∧
          ∀ v ∈ updateVehicles vehicles vehicleId (odoEnd : ℤ),
            v.vehicleID = vehicleId → v.odometer = (odoEnd : ℤ)) := by
  constructor
  · intro hb hneg
    simp only [submit2]
    rw [hb, hneg]
    rfl
  · intro hb anomaly hf
    refine ⟨{ logID := new_id usage, date := Option.some date, user := user,
              company := company, vehicleID := vehicleId, plateNo := plate,
              odoStart := Option.some (odoStart : ℤ), odoEnd := Option.some (odoEnd : ℤ),
              distance := compute_distance (Option.some (odoStart : ℤ))
                (Option.some (odoEnd : ℤ)),
              purpose := purpose, anomalyFlag := anomaly, anomalyNote := "",
              approvedBy := approver }, ?_, rfl,
      updateVehicles_odo vehicles vehicleId (odoEnd : ℤ)⟩
    simp only [submit2]
    rw [hb, hf]
    rfl
/-- Witness for C1 at the spec's example `(start=100, end=90)`: with the
block enabled (empty settings, default true) the submission is rejected;
with `NEGATIVE_MILEAGE_BLOCK=FALSE` it commits a trip with distance −10
and the vehicle's odometer becomes 90. -/
theorem C1_negative_mileage_block_witness :
    (submit2 [] (fun _ => Option.none) [] [⟨"V1", "P", "C", "In Use", 50, 0, "d", "n"⟩]
      ⟨2024, 1, 5⟩ "u" "c" "V1" "P" "trip" "admin" 100 90 =
      .rejected "OdoEnd cannot be less than OdoStart.") ∧
    (∃ t : Trip,
      submit2 [⟨"NEGATIVE_MILEAGE_BLOCK", "FALSE"⟩] (fun _ => Option.none) []
        [⟨"V1", "P", "C", "In Use", 50, 0, "d", "n"⟩]
        ⟨2024, 1, 5⟩ "u" "c" "V1" "P" "trip" "admin" 100 90 =
        .committed ([] ++ [t])
          (updateVehicles [⟨"V1", "P", "C", "In Use", 50, 0, "d", "n"⟩] "V1"
            ((90 : Nat) : ℤ)) ∧
      t.distance = Option.some (((90 : Nat) : ℤ) - ((100 : Nat) : ℤ)) ∧
      ∀ v ∈ updateVehicles [⟨"V1", "P", "C", "In Use", 50, 0, "d", "n"⟩] "V1"
          ((90 : Nat) : ℤ),
        v.vehicleID = "V1" → v.odometer = ((90 : Nat) : ℤ)) :=
  ⟨(C1_negative_mileage_block [] (fun _ => Option.none) []
      [⟨"V1", "P", "C", "In Use", 50, 0, "d", "n"⟩]
      ⟨2024, 1, 5⟩ "u" "c" "V1" "P" "trip" "admin" 100 90).1 (by decide) (by decide),
   (C1_negative_mileage_block [⟨"NEGATIVE_MILEAGE_BLOCK", "FALSE"⟩] (fun _ => Option.none)
      [] [⟨"V1", "P", "C", "In Use", 50, 0, "d", "n"⟩]
      ⟨2024, 1, 5⟩ "u" "c" "V1" "P" "trip" "admin" 100 90).2 (by decide) "" (by decide)⟩

/-- Claim C7: the trip appended by an accepted submission carries the
identifier one greater than the maximum identifier currently in the ledger
(regardless of gaps), or 1 when the ledger is empty. -/
theorem C7_identifier_assignment (settings : List Setting) (parse : String → Option ℤ)
    (usage : List Trip) (vehicles : List Vehicle) (date : YMD)
    (user company vehicleId plate purpose approver : String) (odoStart odoEnd : Nat)
    (u' : List Trip) (v' : List Vehicle)
    (h : submit2 settings parse usage vehicles date user company vehicleId plate
      purpose approver odoStart odoEnd = .committed u' v') :
    ∃ t : Trip, u' = usage ++ [t] ∧
      (usage = [] → t.logID = 1) ∧
      (∀ m : ℤ, m ∈ usage.map Trip.logID → (∀ x ∈ usage.map Trip.logID, x ≤ m) →
        t.logID = m + 1) := by
  obtain ⟨anomaly, -, hu, -⟩ := submit2_committed h
  refine ⟨_, hu, ?_, ?_⟩
  · rintro rfl
    rfl
  · intro m hm hub
    show new_id usage = m + 1
    unfold new_id
    rw [List.maximum_eq_coe_iff.mpr ⟨hm, hub⟩]

/-- Witness for C7: a ledger with identifiers {3, 7, 2} (max 7, with gaps)
gets 8 as the next identifier. -/
theorem C7_identifier_assignment_witness :
    ∃ t : Trip,
      ([⟨3, Option.some ⟨2024, 1, 5⟩, "u", "c", "V1", "P", Option.some 0, Option.some 0,
          Option.some 0, "", "", "", "a"⟩,
        ⟨7, Option.some ⟨2024, 1, 6⟩, "u", "c", "V1", "P", Option.some 0, Option.some 0,
          Option.some 0, "", "", "", "a"⟩,
        ⟨2, Option.some ⟨2024, 1, 7⟩, "u", "c", "V1", "P", Option.some 0, Option.some 0,
          Option.some 0, "", "", "", "a"⟩] ++
        [⟨8, Option.some ⟨2024, 1, 8⟩, "u", "c", "V1", "P", Option.some 0, Option.some 0,
           Option.some 0, "", "", "", "adm"⟩]) =
        ([⟨3, Option.some ⟨2024, 1, 5⟩, "u", "c", "V1", "P", Option.some 0, Option.some 0,
            Option.some 0, "", "", "", "a"⟩,
          ⟨7, Option.some ⟨2024, 1, 6⟩, "u", "c", "V1", "P", Option.some 0, Option.some 0,
            Option.some 0, "", "", "", "a"⟩,
          ⟨2, Option.some ⟨2024, 1, 7⟩, "u", "c", "V1", "P", Option.some 0, Option.some 0,
            Option.some 0, "", "", "", "a"⟩] ++ [t]) ∧
      ([⟨3, Option.some ⟨2024, 1, 5⟩, "u", "c", "V1", "P", Option.some 0, Option.some 0,
          Option.some 0, "", "", "", "a"⟩,
        ⟨7, Option.some ⟨2024, 1, 6⟩, "u", "c", "V1", "P", Option.some 0, Option.some 0,
          Option.some 0, "", "", "", "a"⟩,
        ⟨2, Option.some ⟨2024, 1, 7⟩, "u", "c", "V1", "P", Option.some 0, Option.some 0,
          Option.some 0, "", "", "", "a"⟩] = ([] : List Trip) → t.logID = 1) ∧
      (∀ m : ℤ,
        m ∈ ([⟨3, Option.some ⟨2024, 1, 5⟩, "u", "c", "V1", "P", Option.some 0,
                Option.some 0, Option.some 0, "", "", "", "a"⟩,
              ⟨7, Option.some ⟨2024, 1, 6⟩, "u", "c", "V1", "P", Option.some 0,
                Option.some 0, Option.some 0, "", "", "", "a"⟩,
              ⟨2, Option.some ⟨2024, 1, 7⟩, "u", "c", "V1", "P", Option.some 0,
                Option.some 0, Option.some 0, "", "", "", "a"⟩] : List Trip).map
            Trip.logID →
        (∀ x ∈ ([⟨3, Option.some ⟨2024, 1, 5⟩, "u", "c", "V1", "P", Option.some 0,
                  Option.some 0, Option.some 0, "", "", "", "a"⟩,
                ⟨7, Option.some ⟨2024, 1, 6⟩, "u", "c", "V1", "P", Option.some 0,
                  Option.some 0, Option.some 0, "", "", "", "a"⟩,
                ⟨2, Option.some ⟨2024, 1, 7⟩, "u", "c", "V1", "P", Option.some 0,
                  Option.some 0, Option.some 0, "", "", "", "a"⟩] : List Trip).map
            Trip.logID, x ≤ m) →
        t.logID = m + 1) :=
  C7_identifier_assignment [] (fun _ => Option.none)
    [⟨3, Option.some ⟨2024, 1, 5⟩, "u", "c", "V1", "P", Option.some 0, Option.some 0,
       Option.some 0, "", "", "", "a"⟩,
     ⟨7, Option.some ⟨2024, 1, 6⟩, "u", "c", "V1", "P", Option.some 0, Option.some 0,
       Option.some 0, "", "", "", "a"⟩,
     ⟨2, Option.some ⟨2024, 1, 7⟩, "u", "c", "V1", "P", Option.some 0, Option.some 0,
       Option.some 0, "", "", "", "a"⟩] [] ⟨2024, 1, 8⟩ "u" "c" "V1" "P" "" "adm" 0 0
    ([⟨3, Option.some ⟨2024, 1, 5⟩, "u", "c", "V1", "P", Option.some 0, Option.some 0,
        Option.some 0, "", "", "", "a"⟩,
      ⟨7, Option.some ⟨2024, 1, 6⟩, "u", "c", "V1", "P", Option.some 0, Option.some 0,
        Option.some 0, "", "", "", "a"⟩,
      ⟨2, Option.some ⟨2024, 1, 7⟩, "u", "c", "V1", "P", Option.some 0, Option.some 0,
        Option.some 0, "", "", "", "a"⟩] ++
      [⟨8, Option.some ⟨2024, 1, 8⟩, "u", "c", "V1", "P", Option.some 0, Option.some 0,
         Option.some 0, "", "", "", "adm"⟩]) [] (by decide)
/-- Claim C8: on a committed submission, every vehicle row whose id matches
the submitted vehicle gets odometer := submitted end value and status :=
"Available" unconditionally, with all of its other fields unchanged, and
every other vehicle row is completely unchanged. -/
theorem C8_vehicle_update_unconditional (settings : List Setting)
    (parse : String → Option ℤ) (usage : List Trip) (vehicles : List Vehicle)
    (date : YMD) (user company vehicleId plate purpose approver : String)
    (odoStart odoEnd : Nat) (u' : List Trip) (v' : List Vehicle)
    (h : submit2 settings parse usage vehicles date user company vehicleId plate
      purpose approver odoStart odoEnd = .committed u' v') :
    List.Forall₂ (fun w w' : Vehicle =>
      (w.vehicleID = vehicleId →
        w'.vehicleID = w.vehicleID ∧ w'.plateNo = w.plateNo ∧ w'.company = w.company ∧
        w'.status = "Available" ∧ w'.odometer = (odoEnd : ℤ) ∧
        w'.lastServiceOdo = w.lastServiceOdo ∧ w'.lastServiceDate = w.lastServiceDate ∧
        w'.notes = w.notes) ∧
      (w.vehicleID ≠ vehicleId → w' = w)) vehicles v' := by
  obtain ⟨anomaly, -, -, hv⟩ := submit2_committed h
  subst hv
  unfold updateVehicles
  rw [List.forall₂_map_right_iff]
  refine List.forall₂_same.2 ?_
  intro w hw
  by_cases hid : w.vehicleID = vehicleId
  · refine ⟨fun h2 => ?_, fun hne => absurd hid hne⟩
    rw [if_pos hid]
    exact ⟨rfl, rfl, rfl, rfl, rfl, rfl, rfl, rfl⟩
  · refine ⟨fun h2 => absurd h2 hid, fun hne => ?_⟩
    rw [if_neg hid]

/-- Witness for C8: submitting end odometer 60 for "V1" sets V1's odometer
to 60 and its status to Available (it was "In Use"), leaves V1's other
fields intact, and leaves "V2" completely untouched. -/
theorem C8_vehicle_update_unconditional_witness :
    List.Forall₂ (fun w w' : Vehicle =>
      (w.vehicleID = "V1" →
        w'.vehicleID = w.vehicleID ∧ w'.plateNo = w.plateNo ∧ w'.company = w.company ∧
        w'.status = "Available" ∧ w'.odometer = ((60 : Nat) : ℤ) ∧
        w'.lastServiceOdo = w.lastServiceOdo ∧ w'.lastServiceDate = w.lastServiceDate ∧
        w'.notes = w.notes) ∧
      (w.vehicleID ≠ "V1" → w' = w))
      [⟨"V1", "P", "C", "In Use", 50, 0, "d", "n"⟩,
       ⟨"V2", "Q", "C", "In Use", 70, 0, "d", "n"⟩]
      (updateVehicles
        [⟨"V1", "P", "C", "In Use", 50, 0, "d", "n"⟩,
         ⟨"V2", "Q", "C", "In Use", 70, 0, "d", "n"⟩] "V1" ((60 : Nat) : ℤ)) :=
  C8_vehicle_update_unconditional [] (fun _ => Option.none) []
    [⟨"V1", "P", "C", "In Use", 50, 0, "d", "n"⟩,
     ⟨"V2", "Q", "C", "In Use", 70, 0, "d", "n"⟩]
    ⟨2024, 1, 5⟩ "u" "c" "V1" "P" "" "adm" 50 60
    ([] ++ [⟨1, Option.some ⟨2024, 1, 5⟩, "u", "c", "V1", "P", Option.some 50,
             Option.some 60, Option.some 10, "", "", "", "adm"⟩])
    (updateVehicles
      [⟨"V1", "P", "C", "In Use", 50, 0, "d", "n"⟩,
       ⟨"V2", "Q", "C", "In Use", 70, 0, "d", "n"⟩] "V1" ((60 : Nat) : ℤ))
    (by decide)

/-- Claim C10: a submission with start = end (distance exactly 0) is not
rejected even with the negative-mileage block enabled — the rejection test
is strictly negative — so the zero-distance trip is appended and the
vehicle's odometer is set to the (unchanged) end value. -/
theorem C10_zero_distance_commit (settings : List Setting) (parse : String → Option ℤ)
    (usage : List Trip) (vehicles : List Vehicle) (date : YMD)
    (user company vehicleId plate purpose approver : String) (n : Nat) (q : ℤ)
    (hb : pyBool (get_setting settings parse "NEGATIVE_MILEAGE_BLOCK" (.bool true)) = true)
    (hq : pyFloat parse (get_setting settings parse "DAILY_TRIP_LIMIT" (.num 1000)) =
      Option.some q) :
    ∃ t : Trip,
      submit2 settings parse usage vehicles date user company vehicleId plate purpose
        approver n n =
        .committed (usage ++ [t]) (updateVehicles vehicles vehicleId (n : ℤ)) ∧
      t.distance = Option.some 0 ∧
      ∀ v ∈ updateVehicles vehicles vehicleId (n : ℤ),
        v.vehicleID = vehicleId → v.odometer = (n : ℤ) := by
  have hdist : compute_distance (Option.some (n : ℤ)) (Option.some (n : ℤ)) =
      Option.some 0 := by
    simp [compute_distance]
  have hflag : flag_daily_anomaly settings parse (Option.some 0) =
      .ok (if q < 0 then "DAILY_HIGH" else "") := by
    simp only [flag_daily_anomaly, hq]
  refine ⟨{ logID := new_id usage, date := Option.some date, user := user,
            company := company, vehicleID := vehicleId, plateNo := plate,
            odoStart := Option.some (n : ℤ), odoEnd := Option.some (n : ℤ),
            distance := Option.some 0, purpose := purpose,
            anomalyFlag := (if q < 0 then "DAILY_HIGH" else ""), anomalyNote := "",
            approvedBy := approver }, ?_, rfl,
    updateVehicles_odo vehicles vehicleId (n : ℤ)⟩
  simp only [submit2]
  rw [hdist, hb, hflag]
  rfl

/-- Witness for C10: with default settings (block enabled, limit 1000) a
100 → 100 submission commits a zero-distance trip. -/
theorem C10_zero_distance_commit_witness :
    ∃ t : Trip,
      submit2 [] (fun _ => Option.none) [] [⟨"V1", "P", "C", "In Use", 50, 0, "d", "n"⟩]
        ⟨2024, 1, 5⟩ "u" "c" "V1" "P" "" "adm" 100 100 =
        .committed ([] ++ [t])
          (updateVehicles [⟨"V1", "P", "C", "In Use", 50, 0, "d", "n"⟩] "V1"
            ((100 : Nat) : ℤ)) ∧
      t.distance = Option.some 0 ∧
      ∀ v ∈ updateVehicles [⟨"V1", "P", "C", "In Use", 50, 0, "d", "n"⟩] "V1"
          ((100 : Nat) : ℤ),
        v.vehicleID = "V1" → v.odometer = ((100 : Nat) : ℤ) :=
  C10_zero_distance_commit [] (fun _ => Option.none) []
    [⟨"V1", "P", "C", "In Use", 50, 0, "d", "n"⟩]
    ⟨2024, 1, 5⟩ "u" "c" "V1" "P" "" "adm" 100 1000 (by decide) (by decide)

end PGB
